import Mathlib

/-!
Verification of the `did:web` resolver (crate `did-web`, file `src/lib.rs`) and the
shared error enumeration (`src/error.rs`) of the `ssi` repository.

The Rust code is shallowly embedded: strings are `String`, byte bodies are
`List UInt8`, the network is an explicit oracle `String → String → HttpFetchOutcome`
(URL and Accept header in, classified outcome out), and the external JSON parser of
`resolve` is an explicit parameter. All definitions are executable.
-/

namespace DIDWeb

/-- Embedding of Rust `str::split` (with a non-empty pattern): walk the character
list, emitting an accumulated segment each time the pattern occurs as a prefix.
The fuel argument makes the recursion structural; it is always called with enough
fuel (the length of the input), so the fuel-exhaustion arm is never reached. -/
def splitCharsAux (pat : List Char) : Nat → List Char → List Char → List (List Char)
  | _, [], acc => [acc.reverse]
  | 0, cs, acc => [acc.reverse ++ cs]
  | fuel+1, c :: cs, acc =>
      if pat.isPrefixOf (c :: cs) then
        acc.reverse :: splitCharsAux pat fuel ((c :: cs).drop pat.length) []
      else
        splitCharsAux pat fuel cs (c :: acc)

/-- Rust `s.split(pat)` for a non-empty pattern `pat`: the list of segments of `s`
between the occurrences of `pat` (so `"".split p = [""]`, and a trailing match
yields a trailing empty segment). -/
def splitOnStr (pat s : String) : List String :=
  (splitCharsAux pat.data s.data.length s.data []).map String.mk

/-- Rust `Vec::join(sep)` on a list of strings. -/
def joinSep (sep : String) : List String → String
  | [] => ""
  | [x] => x
  | x :: y :: rest => x ++ sep ++ joinSep sep (y :: rest)

/-- Rust `s.replacen(pat, to, 1)` for a non-empty pattern: replace the first
(leftmost) occurrence of `pat` in `s` by `to`; `s` is unchanged when `pat` does
not occur. -/
def replacen1 (pat rep s : String) : String :=
  match splitOnStr pat s with
  | [] => s
  | [x] => x
  | x :: y :: rest => x ++ rep ++ joinSep pat (y :: rest)

/-- Modelled from the spec: the error code carried in resolution metadata for a
malformed identifier (constant `ERROR_INVALID_DID` of the `ssi_dids` crate, which
is not under `src/`). Claims only compare it for equality, so only its identity
matters. -/
def ERROR_INVALID_DID : String := "invalidDid"

/-- Modelled from the spec: the error code for an absent document (constant
`ERROR_NOT_FOUND` of the `ssi_dids` crate, not under `src/`). -/
def ERROR_NOT_FOUND : String := "notFound"

/-- Modelled from the spec: the content type of a successfully fetched raw
representation (constant `TYPE_DID_LD_JSON` of the `ssi_dids` crate, not under
`src/`); the spec fixes its value to `application/did+ld+json`. -/
def TYPE_DID_LD_JSON : String := "application/did+ld+json"

/-- Modelled from the spec: resolution metadata, `\x7b error: optional code string,
content_type: optional MIME string, extensions: optional key/value map \x7d`
(struct `ResolutionMetadata` of the `ssi_dids` crate, not under `src/`). -/
structure ResolutionMetadata where
  error : Option String := none
  content_type : Option String := none
  property_set : Option (List (String × String)) := none
deriving DecidableEq, Repr

/-- Modelled from the spec: `ResolutionMetadata::from_error` of the `ssi_dids`
crate (not under `src/`) — metadata carrying just the given error code, every
other field at its default. -/
def ResolutionMetadata.from_error (err : String) : ResolutionMetadata :=
  { error := some err, content_type := none, property_set := none }

/-- Modelled from the spec: document metadata, an auxiliary record (e.g.
timestamps) that defaults to an empty value (struct `DocumentMetadata` of the
`ssi_dids` crate, not under `src/`). -/
structure DocumentMetadata where
  created : Option String := none
  updated : Option String := none
deriving DecidableEq, Repr

/-- Rust `DocumentMetadata::default()`: the empty document metadata value. -/
def DocumentMetadata.default : DocumentMetadata := {}

/-- Modelled from the spec: resolution input, a configuration with an optional
content-type preference `accept` (struct `ResolutionInputMetadata` of the
`ssi_dids` crate, not under `src/`). -/
structure ResolutionInputMetadata where
  accept : Option String := none
deriving DecidableEq, Repr

/-- Modelled from the spec: the externally validated structured identity
document. Its schema and validation are external collaborators, so it is kept
opaque here. -/
structure Document where
  raw : String
deriving DecidableEq, Repr

/-- The classified outcome of one HTTP GET, as observed by
`resolve_representation`: the composite of `reqwest` send (`transportError`),
`error_for_status_ref` (`statusError`, with the status code and the error's
display text), body read (`readError`), and success with the body bytes. -/
inductive HttpFetchOutcome where
  | transportError (err : String)
  | statusError (code : Nat) (err : String)
  | readError (err : String)
  | success (body : List UInt8)
deriving DecidableEq, Repr

/-- `did_web_url` from `did-web/src/lib.rs`. `force_http_env` is the effective
value of the `SSI__DID_WEB__FORCE_HTTP_FOR_HOSTNAMES` configuration variable
(the code substitutes `"localhost"` when it is unset). -/
def did_web_url (force_http_env did : String) : Except ResolutionMetadata String :=
  match splitOnStr ":" did with
  | t1 :: t2 :: domain_name :: rest =>
      if t1 = "did" ∧ t2 = "web" ∧ domain_name ≠ "" then
        let path := if rest.isEmpty then ".well-known" else joinSep "/" rest
        let force_http_for_hostnames := splitOnStr "," force_http_env
        let hostname := (splitOnStr "%3A" domain_name).headD ""
        let proto :=
          if force_http_for_hostnames.any (fun h => hostname == h) then "http" else "https"
        .ok (proto ++ "://" ++ replacen1 "%3A" ":" domain_name ++ "/" ++ path ++ "/did.json")
      else
        .error (ResolutionMetadata.from_error ERROR_INVALID_DID)
  | _ => .error (ResolutionMetadata.from_error ERROR_INVALID_DID)

/-- `DIDWeb::resolve_representation` from `did-web/src/lib.rs`, with the HTTP
client abstracted as the oracle `fetch` (URL and Accept header to classified
outcome). -/
def resolve_representation (fetch : String → String → HttpFetchOutcome)
    (force_http_env : String) (input_metadata : ResolutionInputMetadata) (did : String) :
    ResolutionMetadata × List UInt8 × Option DocumentMetadata :=
  match did_web_url force_http_env did with
  | .error meta => (meta, [], none)
  | .ok url =>
    let accept := input_metadata.accept.getD "application/json"
    match fetch url accept with
    | .transportError err =>
        (ResolutionMetadata.from_error ("Error sending HTTP request (" ++ url ++ "): " ++ err),
         [], none)
    | .statusError code err =>
        if code = 404 then
          (ResolutionMetadata.from_error ERROR_NOT_FOUND, [], some DocumentMetadata.default)
        else
          (ResolutionMetadata.from_error err, [], some DocumentMetadata.default)
    | .readError err =>
        (ResolutionMetadata.from_error ("Error reading HTTP response: " ++ err), [], none)
    | .success body =>
        ({ error := none, content_type := some TYPE_DID_LD_JSON, property_set := none },
         body, some DocumentMetadata.default)

/-- `DIDWeb::resolve` from `did-web/src/lib.rs`, with the external JSON parser
(`serde_json::from_slice` at type `Option<Document>`) abstracted as the
parameter `parse`. -/
def resolve (parse : List UInt8 → Except String (Option Document))
    (fetch : String → String → HttpFetchOutcome)
    (force_http_env : String) (input_metadata : ResolutionInputMetadata) (did : String) :
    ResolutionMetadata × Option Document × Option DocumentMetadata :=
  match resolve_representation fetch force_http_env input_metadata did with
  | (res_meta, doc_data, doc_meta_opt) =>
    if doc_data.isEmpty then
      ({ res_meta with content_type := none }, none, doc_meta_opt)
    else
      match parse doc_data with
      | .error err =>
          (ResolutionMetadata.from_error ("JSON Error: " ++ err), none, none)
      | .ok doc_opt =>
          ({ res_meta with content_type := none }, doc_opt, doc_meta_opt)


/-- The `Error` enumeration of `src/error.rs`, in source order. Payload-carrying
variants wrap an external error value; each payload is modelled by the string
that value renders to (its own `Display` output, or for `CurveNotImplemented`
the `Debug` rendering of the curve name), since only that rendering is
observable through `fmt`. -/
inductive SsiError where
  | InvalidSubject
  | InvalidCriticalHeader
  | UnknownCriticalHeader
  | InvalidIssuer
  | AlgorithmNotImplemented
  | ProofTypeNotImplemented
  | MissingAlgorithm
  | AlgorithmMismatch
  | UnsupportedAlgorithm
  | KeyTypeNotImplemented
  | CurveNotImplemented (curveDebug : String)
  | MissingKey
  | MissingPrivateKey
  | MissingModulus
  | MissingExponent
  | MissingPrime
  | MissingCredential
  | MissingKeyParameters
  | MissingProof
  | MissingIssuanceDate
  | MissingTypeVerifiableCredential
  | MissingTypeVerifiablePresentation
  | MissingIssuer
  | MissingVerificationMethod
  | Key
  | TimeError
  | URI
  | InvalidContext
  | MissingContext
  | MissingDocumentId
  | MissingProofSignature
  | ExpiredProof
  | FutureProof
  | InvalidProofPurpose
  | InvalidProofDomain
  | InvalidSignature
  | InvalidJWS
  | MissingCredentialSchema
  | UnsupportedProperty
  | UnsupportedKeyType
  | UnsupportedType
  | UnsupportedProofPurpose
  | UnsupportedCheck
  | TooManyBlankNodes
  | JWTCredentialInPresentation
  | ExpectedUnencodedHeader
  | ResourceNotFound
  | InvalidProofTypeType
  | InvalidKeyLength
  | InconsistentDIDKey
  | RingError
  | KeyRejected (e : String)
  | FromUtf8 (e : String)
  | ASN1Encode (e : String)
  | Base64 (e : String)
  | Multibase (e : String)
  | JSON (e : String)
  | Nonexhaustive

/-- The `impl fmt::Display for Error` match of `src/error.rs`, arm for arm.
A reached arm yields `some` of the written message (delegating arms yield the
wrapped value's rendering); the final `_ => unreachable!()` arm — a panic — is
modelled as `none`. The Rust match lists no arm for `FromUtf8` or
`__Nonexhaustive` (here `Nonexhaustive`), so those two fall through to the
catch-all. -/
def SsiError.display : SsiError → Option String
  | .InvalidSubject => some "Invalid subject for JWT"
  | .InvalidCriticalHeader => some "Invalid crit property in JWT header"
  | .UnknownCriticalHeader => some "Unknown critical header name in JWT header"
  | .InvalidIssuer => some "Invalid issuer for JWT"
  | .MissingKey => some "JWT key not found"
  | .MissingPrivateKey => some "Missing private key parametern JWK"
  | .MissingModulus => some "Missing modulus in RSA key"
  | .MissingExponent => some "Missing modulus in RSA key"
  | .MissingPrime => some "Missing prime factor in RSA key"
  | .MissingKeyParameters => some "JWT key parameters not found"
  | .MissingProof => some "Missing proof property"
  | .MissingIssuanceDate => some "Missing issuance date"
  | .MissingTypeVerifiableCredential => some "Missing type VerifiableCredential"
  | .MissingTypeVerifiablePresentation => some "Missing type VerifiablePresentation"
  | .MissingIssuer => some "Missing issuer property"
  | .MissingVerificationMethod => some "Missing proof verificationMethod"
  | .MissingCredential => some "Verifiable credential not found in JWT"
  | .Key => some "problem with JWT key"
  | .AlgorithmNotImplemented => some "JWA algorithm not implemented"
  | .ProofTypeNotImplemented => some "Linked Data Proof type not implemented"
  | .MissingAlgorithm => some "Missing algorithm in JWT"
  | .AlgorithmMismatch => some "Algorithm in JWS header does not match JWK"
  | .UnsupportedAlgorithm => some "Unsupported algorithm"
  | .KeyTypeNotImplemented => some "Key type not implemented"
  | .CurveNotImplemented curveDebug => some ("Curve not implemented: '" ++ curveDebug ++ "'")
  | .TimeError => some "Unable to convert date/time"
  | .InvalidContext => some "Invalid context"
  | .MissingContext => some "Missing context"
  | .MissingDocumentId => some "Missing document ID"
  | .MissingProofSignature => some "Missing JWS in proof"
  | .ExpiredProof => some "Expired proof"
  | .FutureProof => some "Proof creation time is in the future"
  | .InvalidSignature => some "Invalid Signature"
  | .InvalidJWS => some "Invalid JWS"
  | .InvalidProofPurpose => some "Invalid proof purpose"
  | .InvalidProofDomain => some "Invalid proof domain"
  | .MissingCredentialSchema => some "Missing credential schema for ZKP"
  | .UnsupportedProperty => some "Unsupported property for LDP"
  | .UnsupportedKeyType => some "Unsupported key type for did:key"
  | .TooManyBlankNodes => some "Multiple blank nodes not supported. Either credential or credential subject must have id property. Presentation must have id property."
  | .UnsupportedType => some "Unsupported type for LDP"
  | .UnsupportedProofPurpose => some "Unsupported proof purpose"
  | .UnsupportedCheck => some "Unsupported check"
  | .JWTCredentialInPresentation => some "Unsupported JWT VC in VP"
  | .ExpectedUnencodedHeader => some "Expected unencoded JWT header"
  | .ResourceNotFound => some "Resource not found"
  | .InvalidProofTypeType => some "Invalid ProofType type"
  | .InvalidKeyLength => some "Invalid key length"
  | .InconsistentDIDKey => some "Inconsistent DID Key"
  | .URI => some "Invalid URI"
  | .RingError => some "Crypto error"
  | .KeyRejected e => some e
  | .Base64 e => some e
  | .Multibase e => some e
  | .ASN1Encode e => some e
  | .JSON e => some e
  | _ => none

/-- A fetch oracle whose every request succeeds with an empty body. -/
def fetchEmptySuccess : String → String → HttpFetchOutcome := fun _ _ => .success []

/-- A fetch oracle whose every request yields an HTTP 404 status error. -/
def fetch404 : String → String → HttpFetchOutcome := fun _ _ =>
  .statusError 404 "HTTP status client error (404 Not Found) for url (http://localhost/.well-known/did.json)"

/-- A fetch oracle whose every request yields an HTTP 500 status error. -/
def fetch500 : String → String → HttpFetchOutcome := fun _ _ =>
  .statusError 500 "HTTP status server error (500 Internal Server Error) for url (http://localhost/.well-known/did.json)"

/-- A fetch oracle whose every request fails at the transport level. -/
def fetchTransportFail : String → String → HttpFetchOutcome := fun _ _ =>
  .transportError "error trying to connect: dns error"

/-- A fetch oracle whose every request has a success status but an unreadable body. -/
def fetchReadFail : String → String → HttpFetchOutcome := fun _ _ =>
  .readError "error decoding response body"

/-- A fetch oracle whose every request succeeds with a one-byte body: byte 123,
an opening curly bracket — the start of a JSON object, truncated. -/
def fetchTruncated : String → String → HttpFetchOutcome := fun _ _ => .success [123]

/-- A parser stub that accepts any bytes as JSON `null` (no document). -/
def parseNone : List UInt8 → Except String (Option Document) := fun _ => .ok none

/-- A parser stub that fails on any bytes, as `serde_json` does on a truncated
object. -/
def parseFailEof : List UInt8 → Except String (Option Document) := fun _ =>
  .error "EOF while parsing an object at line 1 column 1"

/-- The default resolution input: no accept preference. -/
def inp0 : ResolutionInputMetadata := {}

end DIDWeb

namespace DIDWeb

theorem did_web_url_ok_eq (env did d : String) (rest : List String)
    (hsplit : splitOnStr ":" did = "did" :: "web" :: d :: rest) (hd : d ≠ "") :
    did_web_url env did = .ok
      ((if (splitOnStr "," env).any (fun h => (splitOnStr "%3A" d).headD "" == h)
          then "http" else "https")
        ++ "://" ++ replacen1 "%3A" ":" d ++ "/"
        ++ (if rest.isEmpty then ".well-known" else joinSep "/" rest) ++ "/did.json") := by
  unfold did_web_url
  rw [hsplit]
  simp [hd]

theorem did_web_url_invalid (env did : String)
    (hbad : ∀ t1 t2 d rest, splitOnStr ":" did = t1 :: t2 :: d :: rest →
      ¬(t1 = "did" ∧ t2 = "web" ∧ d ≠ "")) :
    did_web_url env did = .error (ResolutionMetadata.from_error ERROR_INVALID_DID) := by
  unfold did_web_url
  cases h : splitOnStr ":" did with
  | nil => rfl
  | cons t1 tl =>
    cases tl with
    | nil => rfl
    | cons t2 tl2 =>
      cases tl2 with
      | nil => rfl
      | cons d rest => exact if_neg (hbad t1 t2 d rest h)

end DIDWeb

namespace DIDWeb

/-- C1: for every well-formed did:web identifier the URL Builder returns
`proto://decoded-domain/path/did.json`, where the path is the remaining
colon-separated tokens joined with `/` (or `.well-known` when there are none)
and the first `%3A` of the domain is replaced by `:`; in particular the three
identifiers of the claim map to their stated URLs. -/
theorem C1_url_shape (env did d : String) (rest : List String)
    (hsplit : splitOnStr ":" did = "did" :: "web" :: d :: rest) (hd : d ≠ "") :
    did_web_url env did = .ok
      ((if (splitOnStr "," env).any (fun h => (splitOnStr "%3A" d).headD "" == h)
          then "http" else "https")
        ++ "://" ++ replacen1 "%3A" ":" d ++ "/"
        ++ (if rest.isEmpty then ".well-known" else joinSep "/" rest) ++ "/did.json")
    ∧ did_web_url "localhost" "did:web:w3c-ccg.github.io" =
        .ok "https://w3c-ccg.github.io/.well-known/did.json"
    ∧ did_web_url "localhost" "did:web:w3c-ccg.github.io:user:alice" =
        .ok "https://w3c-ccg.github.io/user/alice/did.json"
    ∧ did_web_url "localhost" "did:web:example.com%3A443:u:bob" =
        .ok "https://example.com:443/u/bob/did.json" :=
  ⟨did_web_url_ok_eq env did d rest hsplit hd, rfl, rfl, rfl⟩

theorem C1_url_shape_witness :
    did_web_url "localhost" "did:web:example.com%3A443:u:bob" = .ok
      ((if (splitOnStr "," "localhost").any
            (fun h => (splitOnStr "%3A" "example.com%3A443").headD "" == h)
          then "http" else "https")
        ++ "://" ++ replacen1 "%3A" ":" "example.com%3A443" ++ "/"
        ++ (if (["u", "bob"] : List String).isEmpty then ".well-known"
            else joinSep "/" ["u", "bob"]) ++ "/did.json") :=
  (C1_url_shape "localhost" "did:web:example.com%3A443:u:bob" "example.com%3A443"
    ["u", "bob"] rfl (by decide)).1

/-- C2: for every identifier whose first two colon-separated tokens are not
literally `did` and `web`, or whose third token (the domain) is empty or
missing, resolve_representation returns InvalidDID metadata, an empty body and
no document metadata, independently of the fetch oracle (so without any network
request). -/
theorem C2_invalid_did (env did : String)
    (hbad : ∀ t1 t2 d rest, splitOnStr ":" did = t1 :: t2 :: d :: rest →
      ¬(t1 = "did" ∧ t2 = "web" ∧ d ≠ "")) :
    ∀ (fetch : String → String → HttpFetchOutcome) (inp : ResolutionInputMetadata),
      resolve_representation fetch env inp did =
        ({ error := some ERROR_INVALID_DID, content_type := none, property_set := none },
         [], none) := by
  intro fetch inp
  unfold resolve_representation
  rw [did_web_url_invalid env did hbad]
  rfl

theorem C2_invalid_did_witness :
    resolve_representation fetch404 "localhost" inp0 "did:web:" =
      ({ error := some ERROR_INVALID_DID, content_type := none, property_set := none },
       [], none) :=
  C2_invalid_did "localhost" "did:web:"
    (fun t1 t2 d rest h => by
      rw [show splitOnStr ":" "did:web:" = ["did", "web", ""] from rfl] at h
      obtain ⟨h1, h2, h3, h4⟩ := by simpa using h
      rintro ⟨-, -, hne⟩
      exact hne h3.symm)
    fetch404 inp0

end DIDWeb

namespace DIDWeb

theorem http_prefix_ne (a b : String) : "http://" ++ a ≠ "https://" ++ b := by
  intro h
  have hdata := congrArg String.data h
  simp [String.data_append] at hdata

/-- C3: for every well-formed did:web identifier and every value of the
comma-delimited allow-list configuration, the built URL starts with `http://`
exactly when the portion of the domain before the first `%3A` equals one of the
comma-separated allow-list entries, and starts with `https://` exactly
otherwise. -/
theorem C3_protocol (env did d : String) (rest : List String)
    (hsplit : splitOnStr ":" did = "did" :: "web" :: d :: rest) (hd : d ≠ "") :
    ((∃ tail, did_web_url env did = .ok ("http://" ++ tail)) ↔
        ∃ entry ∈ splitOnStr "," env, (splitOnStr "%3A" d).headD "" = entry)
    ∧ ((∃ tail, did_web_url env did = .ok ("https://" ++ tail)) ↔
        ¬ ∃ entry ∈ splitOnStr "," env, (splitOnStr "%3A" d).headD "" = entry) := by
  have h := did_web_url_ok_eq env did d rest hsplit hd
  have hcond : ((splitOnStr "," env).any
        (fun x => (splitOnStr "%3A" d).headD "" == x) = true) ↔
      ∃ entry ∈ splitOnStr "," env, (splitOnStr "%3A" d).headD "" = entry := by
    simp [List.any_eq_true]
  by_cases hc : (splitOnStr "," env).any
      (fun x => (splitOnStr "%3A" d).headD "" == x) = true
  · rw [if_pos hc] at h
    have h' : did_web_url env did = .ok ("http://" ++
        (replacen1 "%3A" ":" d ++ ("/" ++
          ((if rest.isEmpty then ".well-known" else joinSep "/" rest) ++ "/did.json")))) := by
      rw [h]
      simp only [String.append_assoc]
      rfl
    refine ⟨⟨fun _ => hcond.mp hc, fun _ => ⟨_, h'⟩⟩, ?_, ?_⟩
    · rintro ⟨tail, htail⟩
      rw [h'] at htail
      simp only [Except.ok.injEq] at htail
      exact absurd htail (http_prefix_ne _ _)
    · intro hn
      exact absurd (hcond.mp hc) hn
  · rw [if_neg hc] at h
    have h' : did_web_url env did = .ok ("https://" ++
        (replacen1 "%3A" ":" d ++ ("/" ++
          ((if rest.isEmpty then ".well-known" else joinSep "/" rest) ++ "/did.json")))) := by
      rw [h]
      simp only [String.append_assoc]
      rfl
    refine ⟨⟨?_, fun hex => absurd (hcond.mpr hex) hc⟩,
            ⟨fun _ => fun hex => hc (hcond.mpr hex), fun _ => ⟨_, h'⟩⟩⟩
    rintro ⟨tail, htail⟩
    rw [h'] at htail
    simp only [Except.ok.injEq] at htail
    exact absurd htail.symm (http_prefix_ne _ _)

theorem C3_protocol_witness :
    ∃ tail, did_web_url "localhost" "did:web:localhost" = .ok ("http://" ++ tail) :=
  (C3_protocol "localhost" "did:web:localhost" "localhost" [] rfl (by decide)).left.mpr
    ⟨"localhost", by decide, rfl⟩

end DIDWeb

namespace DIDWeb

theorem resolve_representation_ok (fetch : String → String → HttpFetchOutcome)
    (env : String) (inp : ResolutionInputMetadata) (did url : String)
    (hurl : did_web_url env did = .ok url) :
    resolve_representation fetch env inp did =
      (match fetch url (inp.accept.getD "application/json") with
       | .transportError err =>
          (ResolutionMetadata.from_error ("Error sending HTTP request (" ++ url ++ "): " ++ err),
           [], none)
       | .statusError code err =>
          if code = 404 then
            (ResolutionMetadata.from_error ERROR_NOT_FOUND, [], some DocumentMetadata.default)
          else
            (ResolutionMetadata.from_error err, [], some DocumentMetadata.default)
       | .readError err =>
          (ResolutionMetadata.from_error ("Error reading HTTP response: " ++ err), [], none)
       | .success body =>
          ({ error := none, content_type := some TYPE_DID_LD_JSON, property_set := none },
           body, some DocumentMetadata.default)) := by
  unfold resolve_representation
  rw [hurl]

theorem resolve_eq (parse : List UInt8 → Except String (Option Document))
    (fetch : String → String → HttpFetchOutcome)
    (env : String) (inp : ResolutionInputMetadata) (did : String) :
    resolve parse fetch env inp did =
      (fun (r : ResolutionMetadata × List UInt8 × Option DocumentMetadata) =>
        if r.2.1.isEmpty then ({ r.1 with content_type := none }, none, r.2.2)
        else
          match parse r.2.1 with
          | .error err => (ResolutionMetadata.from_error ("JSON Error: " ++ err), none, none)
          | .ok doc_opt => ({ r.1 with content_type := none }, doc_opt, r.2.2))
      (resolve_representation fetch env inp did) := by
  unfold resolve
  rcases resolve_representation fetch env inp did with ⟨m, b, dm⟩
  rfl

/-- C4: the metadata returned by resolve has content_type absent on every path,
including error paths; and the metadata returned by resolve_representation on a
successful fetch has content_type `application/did+ld+json` and error absent. -/
theorem C4_content_type :
    (∀ parse fetch env inp did,
      (resolve parse fetch env inp did).1.content_type = none)
    ∧ (∀ fetch env inp did url body,
        did_web_url env did = .ok url →
        fetch url (inp.accept.getD "application/json") = .success body →
        (resolve_representation fetch env inp did).1 =
          { error := none, content_type := some TYPE_DID_LD_JSON, property_set := none }) := by
  constructor
  · intro parse fetch env inp did
    rw [resolve_eq]
    rcases resolve_representation fetch env inp did with ⟨m, b, dm⟩
    cases hb : b.isEmpty <;> simp [hb]
    cases parse b <;> simp [ResolutionMetadata.from_error]
  · intro fetch env inp did url body hurl hfetch
    rw [resolve_representation_ok fetch env inp did url hurl, hfetch]

theorem C4_content_type_witness :
    (resolve parseNone fetchEmptySuccess "localhost" inp0 "did:web:localhost").1.content_type
        = none
    ∧ (resolve_representation fetchEmptySuccess "localhost" inp0 "did:web:localhost").1 =
        { error := none, content_type := some TYPE_DID_LD_JSON, property_set := none } :=
  ⟨C4_content_type.1 parseNone fetchEmptySuccess "localhost" inp0 "did:web:localhost",
   C4_content_type.2 fetchEmptySuccess "localhost" inp0 "did:web:localhost"
     "http://localhost/.well-known/did.json" [] rfl rfl⟩

/-- C5: for every HTTP response with a non-success status,
resolve_representation returns an empty body and a present default document
metadata; the error is the NotFound code when the status is 404 and the
server's status/error text otherwise, with identical document metadata in both
cases. -/
theorem C5_non_success (fetch : String → String → HttpFetchOutcome)
    (env : String) (inp : ResolutionInputMetadata) (did url : String)
    (code : Nat) (errText : String)
    (hurl : did_web_url env did = .ok url)
    (hfetch : fetch url (inp.accept.getD "application/json") = .statusError code errText) :
    resolve_representation fetch env inp did =
      (ResolutionMetadata.from_error (if code = 404 then ERROR_NOT_FOUND else errText),
       [], some DocumentMetadata.default) := by
  rw [resolve_representation_ok fetch env inp did url hurl, hfetch]
  by_cases h4 : code = 404 <;> simp [h4]

theorem C5_non_success_witness :
    resolve_representation fetch404 "localhost" inp0 "did:web:localhost" =
      (ResolutionMetadata.from_error
        (if 404 = 404 then ERROR_NOT_FOUND
         else "HTTP status client error (404 Not Found) for url (http://localhost/.well-known/did.json)"),
       [], some DocumentMetadata.default) :=
  C5_non_success fetch404 "localhost" inp0 "did:web:localhost"
    "http://localhost/.well-known/did.json" 404
    "HTTP status client error (404 Not Found) for url (http://localhost/.well-known/did.json)"
    rfl rfl

/-- C6: for every fetch that fails at the transport level,
resolve_representation returns an error whose detail names the attempted URL,
an empty body, and absent document metadata. -/
theorem C6_transport (fetch : String → String → HttpFetchOutcome)
    (env : String) (inp : ResolutionInputMetadata) (did url err : String)
    (hurl : did_web_url env did = .ok url)
    (hfetch : fetch url (inp.accept.getD "application/json") = .transportError err) :
    resolve_representation fetch env inp did =
      (ResolutionMetadata.from_error ("Error sending HTTP request (" ++ url ++ "): " ++ err),
       [], none) := by
  rw [resolve_representation_ok fetch env inp did url hurl, hfetch]

theorem C6_transport_witness :
    resolve_representation fetchTransportFail "localhost" inp0 "did:web:localhost" =
      (ResolutionMetadata.from_error
        ("Error sending HTTP request (" ++ "http://localhost/.well-known/did.json" ++ "): "
          ++ "error trying to connect: dns error"),
       [], none) :=
  C6_transport fetchTransportFail "localhost" inp0 "did:web:localhost"
    "http://localhost/.well-known/did.json" "error trying to connect: dns error" rfl rfl

/-- C10: for every HTTP response with a successful status whose body fails to
be read, resolve_representation returns an error whose detail begins with
`Error reading HTTP response: `, an empty body, and absent document metadata —
an outcome shape distinct from the transport, 404, other-status and success
cases. -/
theorem C10_read_error (fetch : String → String → HttpFetchOutcome)
    (env : String) (inp : ResolutionInputMetadata) (did url err : String)
    (hurl : did_web_url env did = .ok url)
    (hfetch : fetch url (inp.accept.getD "application/json") = .readError err) :
    resolve_representation fetch env inp did =
      (ResolutionMetadata.from_error ("Error reading HTTP response: " ++ err), [], none) := by
  rw [resolve_representation_ok fetch env inp did url hurl, hfetch]

theorem C10_read_error_witness :
    resolve_representation fetchReadFail "localhost" inp0 "did:web:localhost" =
      (ResolutionMetadata.from_error
        ("Error reading HTTP response: " ++ "error decoding response body"), [], none) :=
  C10_read_error fetchReadFail "localhost" inp0 "did:web:localhost"
    "http://localhost/.well-known/did.json" "error decoding response body" rfl rfl

end DIDWeb

namespace DIDWeb

/-- C7: for every fetched byte body that is non-empty but fails to parse,
resolve returns fresh metadata whose error is `JSON Error: ` followed by the
parse detail, with no document and no document metadata; for the same input
resolve_representation returns no error and the raw bytes unchanged. -/
theorem C7_parse_failure (parse : List UInt8 → Except String (Option Document))
    (fetch : String → String → HttpFetchOutcome)
    (env : String) (inp : ResolutionInputMetadata) (did url : String)
    (body : List UInt8) (e : String)
    (hurl : did_web_url env did = .ok url)
    (hfetch : fetch url (inp.accept.getD "application/json") = .success body)
    (hne : body ≠ [])
    (hparse : parse body = .error e) :
    resolve parse fetch env inp did =
      (ResolutionMetadata.from_error ("JSON Error: " ++ e), none, none)
    ∧ (resolve_representation fetch env inp did).1.error = none
    ∧ (resolve_representation fetch env inp did).2.1 = body := by
  have hrr := resolve_representation_ok fetch env inp did url hurl
  rw [hfetch] at hrr
  have hb : body.isEmpty = false := by
    cases body with
    | nil => exact absurd rfl hne
    | cons x xs => rfl
  refine ⟨?_, ?_, ?_⟩
  · rw [resolve_eq, hrr]
    simp [hb, hparse]
  · rw [hrr]
  · rw [hrr]

theorem C7_parse_failure_witness :
    resolve parseFailEof fetchTruncated "localhost" inp0 "did:web:localhost" =
      (ResolutionMetadata.from_error
        ("JSON Error: " ++ "EOF while parsing an object at line 1 column 1"), none, none)
    ∧ (resolve_representation fetchTruncated "localhost" inp0 "did:web:localhost").1.error
        = none
    ∧ (resolve_representation fetchTruncated "localhost" inp0 "did:web:localhost").2.1
        = [123] :=
  C7_parse_failure parseFailEof fetchTruncated "localhost" inp0 "did:web:localhost"
    "http://localhost/.well-known/did.json" [123]
    "EOF while parsing an object at line 1 column 1" rfl rfl (by decide) rfl

/-- C8 counterexample: on a success response with an empty body, the body
returned by resolve_representation is empty and yet resolve does not pass the
resolution metadata through unchanged — it clears the content_type that
resolve_representation had set to `application/did+ld+json`. -/
theorem C8_counterexample :
    (resolve_representation fetchEmptySuccess "localhost" inp0 "did:web:localhost").2.1 = []
    ∧ (resolve parseNone fetchEmptySuccess "localhost" inp0 "did:web:localhost").1 ≠
        (resolve_representation fetchEmptySuccess "localhost" inp0 "did:web:localhost").1 :=
  ⟨rfl, by decide⟩

/-- C8 (amended): for every call of resolve in which the underlying
resolve_representation returns an empty byte body, resolve returns an absent
document, passes the document metadata through unchanged, and passes the
resolution metadata through with only its content_type field cleared (on the
NotFound and transport-error paths content_type was already absent, so the
metadata is unchanged there); no parsing is attempted. -/
theorem C8_empty_body (parse : List UInt8 → Except String (Option Document))
    (fetch : String → String → HttpFetchOutcome)
    (env : String) (inp : ResolutionInputMetadata) (did : String)
    (hempty : (resolve_representation fetch env inp did).2.1 = []) :
    resolve parse fetch env inp did =
      ({ (resolve_representation fetch env inp did).1 with content_type := none }, none,
       (resolve_representation fetch env inp did).2.2) := by
  rw [resolve_eq]
  rcases hrr : resolve_representation fetch env inp did with ⟨m, b, dm⟩
  rw [hrr] at hempty
  simp only at hempty
  subst hempty
  simp

theorem C8_empty_body_witness :
    resolve parseNone fetch404 "localhost" inp0 "did:web:localhost" =
      ({ (resolve_representation fetch404 "localhost" inp0 "did:web:localhost").1 with
          content_type := none }, none,
       (resolve_representation fetch404 "localhost" inp0 "did:web:localhost").2.2) :=
  C8_empty_body parseNone fetch404 "localhost" inp0 "did:web:localhost" rfl

/-- C9 counterexample: formatting the FromUtf8 variant — and the hidden
reserved variant — reaches the unreachable catch-all arm of the Display match:
no message is produced, instead of delegating to the wrapped value. -/
theorem C9_counterexample :
    SsiError.display (SsiError.FromUtf8 "invalid utf-8 sequence of 1 bytes from index 0")
        = none
    ∧ SsiError.display SsiError.Nonexhaustive = none :=
  ⟨rfl, rfl⟩

/-- C9 (amended): formatting is total and yields a message on every variant
except FromUtf8 and the hidden reserved variant; the wrapped kinds KeyRejected,
ASN1Encode, Base64, Multibase and JSON delegate to the wrapped value's own
rendering; FromUtf8 and the reserved variant reach the unreachable catch-all
arm and produce no message. -/
theorem C9_display :
    (∀ e : SsiError, (∀ s, e ≠ SsiError.FromUtf8 s) → e ≠ SsiError.Nonexhaustive →
      (SsiError.display e).isSome = true)
    ∧ (∀ s, SsiError.display (SsiError.KeyRejected s) = some s)
    ∧ (∀ s, SsiError.display (SsiError.ASN1Encode s) = some s)
    ∧ (∀ s, SsiError.display (SsiError.Base64 s) = some s)
    ∧ (∀ s, SsiError.display (SsiError.Multibase s) = some s)
    ∧ (∀ s, SsiError.display (SsiError.JSON s) = some s)
    ∧ (∀ s, SsiError.display (SsiError.FromUtf8 s) = none)
    ∧ SsiError.display SsiError.Nonexhaustive = none := by
  refine ⟨?_, fun s => rfl, fun s => rfl, fun s => rfl, fun s => rfl, fun s => rfl,
    fun s => rfl, rfl⟩
  intro e h1 h2
  cases e <;> first
    | rfl
    | exact absurd rfl (h1 _)
    | exact absurd rfl h2

theorem C9_display_witness :
    (SsiError.display SsiError.InvalidSubject).isSome = true :=
  C9_display.1 SsiError.InvalidSubject (fun _ h => SsiError.noConfusion h)
    (fun h => SsiError.noConfusion h)

end DIDWeb
